import Mathlib

/-!
Verification development for the aivideoeditor backend.

Shallow embedding of:
  - src/backend/services/ai_service.py   (AIService.stream_generate, error taxonomy)
  - src/backend/routers/routers.py       (send_message.generate_stream)
  - src/backend/managers/session_manager.py (SessionManager)
  - src/backend/main.py                  (download-speed config, file stream
    generators, media listing)

Conventions: Python `datetime.now()` readings are passed in as explicit `Nat`
timestamps (a monotone clock supplies non-decreasing values across successive
calls); Python dicts become association lists; Python functions that can raise
an exception visible to their caller are embedded in `Except`; async
generators become total functions returning the list of yielded items, so
"the generator terminates normally" is inherent in the embedding and the
interesting content is which items are yielded.
-/

/-! ### Error taxonomy (src/backend/services/ai_service.py, except-chain of
`stream_generate`, lines 131-190) -/

/-- The ten classified upstream failure kinds: one per `except` branch of
`AIService.stream_generate`. `unknown` is the `except Exception` catch-all. -/
inductive ErrorKind where
  | authentication
  | rateLimited
  | connectionFailure
  | timeout
  | badRequest
  | serverError
  | resourceNotFound
  | permissionDenied
  | unprocessableContent
  | unknown
  deriving DecidableEq, Repr

/-- The fixed user-facing message each handler returns
(`_handle_authentication_error` ... and the catch-all message). -/
def handlerMessage : ErrorKind → String
  | .authentication => "[OpenAI API 错误: API 密钥验证失败，请检查您的 API 密钥设置]"
  | .rateLimited => "[OpenAI API 错误: 请求频率过高，请稍后再试]"
  | .connectionFailure => "[OpenAI API 错误: 无法连接到 OpenAI 服务，请检查网络连接]"
  | .timeout => "[OpenAI API 错误: 请求超时，请稍后重试]"
  | .badRequest => "[OpenAI API 错误: 请求格式错误，请检查输入内容]"
  | .serverError => "[OpenAI API 错误: OpenAI 服务器内部错误，请稍后重试]"
  | .resourceNotFound => "[OpenAI API 错误: 请求的资源不存在]"
  | .permissionDenied => "[OpenAI API 错误: 权限不足，请检查 API 密钥权限]"
  | .unprocessableContent => "[OpenAI API 错误: 请求内容无法处理，请检查输入格式]"
  | .unknown => "[OpenAI API 错误: 发生未知错误，请稍后重试]"

/-- The sentinel fragment actually yielded by each `except` branch:
`yield f"{error_message}\n"` appends a newline to the handler message. -/
def errorFragment (k : ErrorKind) : String := handlerMessage k ++ "\n"

/-- TokenUsage (ai_service.py lines 21-25); the pydantic defaults are all 0. -/
structure TokenUsage where
  prompt_tokens : Nat
  completion_tokens : Nat
  total_tokens : Nat
  deriving DecidableEq, Repr

/-- A chunk delivered by the upstream streaming completion API: an optional
text delta (`chunk.choices[0].delta.content`) and an optional usage record
(`chunk.usage`). -/
structure UpstreamChunk where
  content : Option String
  usage : Option TokenUsage

/-- The upstream behaviour observed by one `stream_generate` call: the chunks
that arrived before the stream either ended normally (`err = none`) or raised
a classified exception (`err = some k`). -/
def upstreamVisible (chunks : List UpstreamChunk) : List String :=
  chunks.filterMap (fun c => c.content)

/-- `AIService.stream_generate` (ai_service.py lines 102-190): yields each
non-`None` delta; records the latest `chunk.usage` into `_last_usage`
(initialised to zeros before the loop).  Every classified exception is caught:
the branch yields the handler message plus `"\n"` and resets `_last_usage` to
zeros, and the generator then returns normally — no except branch re-raises.
Result: (fragments yielded, final `_last_usage`). -/
def stream_generate (chunks : List UpstreamChunk) (err : Option ErrorKind) :
    List String × TokenUsage :=
  let frags := upstreamVisible chunks
  let u := chunks.foldl
    (fun acc c => match c.usage with | some v => v | none => acc) ⟨0, 0, 0⟩
  match err with
  | none => (frags, u)
  | some k => (frags ++ [errorFragment k], ⟨0, 0, 0⟩)

/-- Python `str.strip()` on the texts at hand: drop whitespace characters
(space, tab, newline, carriage return) from both ends. -/
def pyStrip (s : String) : String :=
  String.mk (((s.data.dropWhile Char.isWhitespace).reverse.dropWhile
    Char.isWhitespace).reverse)

/-- `send_message.generate_stream` (routers.py lines 44-65): forwards every
fragment of `stream_generate` to the client while concatenating them into
`full_response`; after the loop ends it performs the single call
`SESSION_MANAGER.save_message(session_id, "assistant", full_response.strip())`.
The `except` branch is unreachable here because `stream_generate` never
raises (all upstream failures are converted to in-band fragments).
Result: (fragments yielded to the client, list of (role, content) appends). -/
def generate_stream (chunks : List UpstreamChunk) (err : Option ErrorKind) :
    List String × List (String × String) :=
  let frags := (stream_generate chunks err).1
  (frags, [("assistant", pyStrip (String.join frags))])

/-! ### Session store (src/backend/models/models.py, src/backend/managers/session_manager.py) -/

/-- A stored chat message (the OpenAI `ChatCompletion*MessageParam` dicts that
`save_message` constructs): role, content, and — for the tool fallback only —
a `tool_call_id`. -/
structure MessageParam where
  role : String
  content : String
  tool_call_id : Option String
  deriving DecidableEq, Repr

/-- `ChatSession` (models.py lines 7-13). Timestamps are clock readings. -/
structure ChatSession where
  session_id : String
  created_at : Nat
  updated_at : Nat
  messages : List MessageParam
  deriving DecidableEq, Repr

/-- `SessionManager.sessions`: a Python dict as an insertion-ordered
association list. -/
abbrev SessionStore := List (String × ChatSession)

/-- Python dict lookup `self.sessions.get(session_id)`; this is
`SessionManager.get_session` (session_manager.py lines 29-35). -/
def get_session (store : SessionStore) (id : String) : Option ChatSession :=
  (store.find? (fun p => p.1 = id)).map (fun p => p.2)

/-- Python dict assignment `self.sessions[session_id] = session`: replace in
place when the key exists, else append. -/
def dictInsert (store : SessionStore) (k : String) (v : ChatSession) : SessionStore :=
  if store.any (fun p => p.1 = k) then
    store.map (fun p => if p.1 = k then (k, v) else p)
  else store ++ [(k, v)]

/-- `SessionManager.create_session` (session_manager.py lines 16-27): fresh id
`"chat_" + uuid4()`, then `created_at=datetime.now(), updated_at=datetime.now()`
— two separate clock readings `t1` then `t2`. Returns the session and the
updated store. -/
def create_session (store : SessionStore) (uuid : String) (t1 t2 : Nat) :
    ChatSession × SessionStore :=
  let sid := "chat_" ++ uuid
  let s : ChatSession := ⟨sid, t1, t2, []⟩
  (s, dictInsert store sid s)

/-- `SessionManager.update_session` (session_manager.py lines 37-42): sets
`updated_at` to the current clock reading when the id exists, otherwise only
logs a warning. -/
def update_session (store : SessionStore) (id : String) (t : Nat) : SessionStore :=
  store.map (fun p => if p.1 = id then (p.1, { p.2 with updated_at := t }) else p)

/-- The role-based message construction inside `save_message`
(session_manager.py lines 50-74): user/assistant/system dicts carry no
`tool_call_id`; any other role falls back to a tool message with
`tool_call_id = f"unknown_{role}"`. -/
def make_message (role content : String) : MessageParam :=
  if role = "user" then ⟨"user", content, none⟩
  else if role = "assistant" then ⟨"assistant", content, none⟩
  else if role = "system" then ⟨"system", content, none⟩
  else ⟨"tool", content, some ("unknown_" ++ role)⟩

/-- The store-level failures the spec's SessionStore interface names. -/
inductive SessionError where
  | notFound
  deriving DecidableEq, Repr

/-- `SessionManager.save_message` (session_manager.py lines 44-80), embedded
in `Except` as a fallible operation. When the session exists it appends the
constructed message and calls `update_session` with the current clock reading
`t`. When the id is unknown the Python code only logs
`"尝试保存消息到不存在的会话"` and returns `None` — it raises nothing, so the
embedding returns `.ok` with the store unchanged on that path too; no branch
produces `.error`. -/
def save_message (store : SessionStore) (id role content : String) (t : Nat) :
    Except SessionError SessionStore :=
  match get_session store id with
  | some _ =>
      let store1 := store.map (fun p =>
        if p.1 = id then
          (p.1, { p.2 with messages := p.2.messages ++ [make_message role content] })
        else p)
      .ok (update_session store1 id t)
  | none => .ok store

/-- `SessionManager.get_session_history` (session_manager.py lines 82-93):
the session's messages, or `[]` when the id is unknown. -/
def get_session_history (store : SessionStore) (id : String) : List MessageParam :=
  match get_session store id with
  | some s => s.messages
  | none => []

/-! ### Download-speed configuration (src/backend/main.py lines 24-26, 120-151) -/

/-- `CHUNK_SIZE = 8192` (main.py line 26). -/
def CHUNK_SIZE : Nat := 8192

/-- Python `int()` applied to a non-negative or negative rational: truncation
toward zero. -/
def pyInt (q : ℚ) : ℤ := if 0 ≤ q then ⌊q⌋ else ⌈q⌉

/-- Python `round(x, 2)` (round half to even at the second decimal), on the
exact rational value. -/
def roundHalfEven (q : ℚ) : ℤ :=
  let f := ⌊q⌋
  let r := q - (f : ℚ)
  if r < 1 / 2 then f
  else if 1 / 2 < r then f + 1
  else if f % 2 = 0 then f else f + 1

/-- `round(x, 2)` as a rational result. -/
def pyRound2 (q : ℚ) : ℚ := (roundHalfEven (q * 100) : ℚ) / 100

/-- `HTTPException(status_code, detail)` as raised by the endpoints. -/
structure HTTPStatusError where
  status_code : Nat
  detail : String
  deriving DecidableEq, Repr

/-- `set_download_speed` (main.py lines 130-151): rejects `speed_mbps <= 0`
and `speed_mbps > 100` with a 400 before touching `DOWNLOAD_SPEED_LIMIT`;
otherwise stores `int(speed_mbps * 1024 * 1024)` and returns it. On `.error`
the global limit is untouched (the raise happens before the assignment). -/
def set_download_speed (speed_mbps : ℚ) : Except HTTPStatusError ℤ :=
  if speed_mbps ≤ 0 then .error ⟨400, "Speed must be greater than 0"⟩
  else if 100 < speed_mbps then .error ⟨400, "Speed cannot exceed 100 MB/s"⟩
  else .ok (pyInt (speed_mbps * 1024 * 1024))

/-- `get_download_speed` (main.py lines 120-127): reports the stored limit in
bytes/s, the limit converted to MB/s rounded to two decimals, and the chunk
size. -/
def get_download_speed (limit : ℤ) : ℤ × ℚ × Nat :=
  (limit, pyRound2 ((limit : ℚ) / 1024 / 1024), CHUNK_SIZE)

/-- The per-chunk rate-limit delay of `_generate_file_stream` and
`_generate_error_file_stream` (main.py lines 173-179): with
`expected_time = bytes_sent / DOWNLOAD_SPEED_LIMIT`, sleep
`expected_time - elapsed_time` when `expected_time > elapsed_time`, else do
not sleep. -/
def compute_delay (limit : ℚ) (bytes_sent : Nat) (elapsed : ℚ) : ℚ :=
  let expected := (bytes_sent : ℚ) / limit
  if elapsed < expected then expected - elapsed else 0

/-! ### File stream generators (src/backend/main.py lines 154-221).
File contents are byte lists; `file.read(CHUNK_SIZE)` is `take`/`drop`. The
rate-limit sleep (modelled by `compute_delay`) does not change which bytes
are yielded, so the generators are embedded as the list of yielded chunks. -/

/-- `_generate_file_stream` (main.py lines 154-181): read chunks of size `C`
until `read` returns empty, yielding each one. -/
def generate_file_stream (C : Nat) (content : List Nat) : List (List Nat) :=
  if h : content.take C = [] then []
  else content.take C :: generate_file_stream C (content.drop C)
termination_by content.length
decreasing_by
  simp only [List.take_eq_nil_iff, not_or] at h
  exact List.length_drop _ _ ▸ Nat.sub_lt (List.length_pos.mpr h.2) (Nat.pos_of_ne_zero h.1)

/-- The loop of `_generate_error_file_stream` (main.py lines 202-221): after
reading a chunk and accounting it into `bytes_sent`, the generator raises
`ConnectionError` — before yielding that chunk — as soon as
`bytes_sent >= half_size`. Result: (chunks actually yielded, whether the
generator ended by raising the transfer-aborted `ConnectionError`). -/
def error_stream_loop (C half_size : Nat) (content : List Nat) (bytes_sent : Nat) :
    List (List Nat) × Bool :=
  if h : content.take C = [] then ([], false)
  else
    let chunk := content.take C
    let bs := bytes_sent + chunk.length
    if half_size ≤ bs then ([], true)
    else
      let r := error_stream_loop C half_size (content.drop C) bs
      (chunk :: r.1, r.2)
termination_by content.length
decreasing_by
  simp only [List.take_eq_nil_iff, not_or] at h
  exact List.length_drop _ _ ▸ Nat.sub_lt (List.length_pos.mpr h.2) (Nat.pos_of_ne_zero h.1)

/-- `_generate_error_file_stream` (main.py lines 184-221):
`half_size = file_size // 2`, then the loop above starting from
`bytes_sent = 0`. -/
def generate_error_file_stream (C : Nat) (content : List Nat) :
    List (List Nat) × Bool :=
  error_stream_loop C (content.length / 2) content 0

/-- Total bytes in a list of yielded chunks. -/
def totalBytes (chunks : List (List Nat)) : Nat :=
  (chunks.map List.length).sum

/-! ### Media listing (src/backend/main.py lines 29-69, 388-449) -/

/-- `MEDIA_FILES_PATH` (main.py line 22). -/
def MEDIA_FILES_PATH : String := "E:/Downloads"

/-- The video extension set of `_get_media_type` (main.py lines 39-49). -/
def video_extensions : List String :=
  [".mp4", ".avi", ".mov", ".mkv", ".wmv", ".flv", ".webm", ".m4v", ".3gp"]

/-- The audio extension set of `_get_media_type` (main.py line 50). -/
def audio_extensions : List String :=
  [".mp3", ".wav", ".aac", ".flac", ".ogg", ".m4a", ".wma"]

/-- The image extension set of `_get_media_type` (main.py lines 51-60). -/
def image_extensions : List String :=
  [".jpg", ".jpeg", ".png", ".gif", ".bmp", ".webp", ".svg", ".tiff"]

/-- `_get_media_type` (main.py lines 29-69). -/
def get_media_type (ext : String) : String :=
  if video_extensions.contains ext then "video"
  else if audio_extensions.contains ext then "audio"
  else if image_extensions.contains ext then "image"
  else "unknown"

/-- `SUPPORTED_EXTENSIONS` (main.py lines 397-425): video ∪ audio ∪ image. -/
def SUPPORTED_EXTENSIONS : List String :=
  video_extensions ++ audio_extensions ++ image_extensions

/-- `pathlib.PurePath.suffix` on a single path component: with `i` the index
of the last `'.'`, the substring from `i` when `0 < i < len - 1`, else `""`. -/
def pySuffix (name : String) : String :=
  let cs := name.data
  match ((List.range cs.length).filter (fun i => cs.get? i = some '.')).getLast? with
  | some i => if 0 < i ∧ i + 1 < cs.length then String.mk (cs.drop i) else ""
  | none => ""

/-- Python `str.lower()` on the ASCII extension strings at hand. -/
def pyLower (s : String) : String := String.mk (s.data.map Char.toLower)

/-- One entry of `Path.iterdir()` as the listing code observes it: its name,
whether `is_file()` holds, and `stat().st_size`. -/
structure DirEntry where
  name : String
  is_file : Bool
  size : Nat
  deriving DecidableEq, Repr

/-- The filesystem state the media listing reads and writes: whether
`MEDIA_FILES_PATH` exists, and its directory entries when it does. -/
structure MediaFS where
  rootExists : Bool
  entries : List DirEntry
  deriving DecidableEq, Repr

/-- One element of the `files` list built by `list_media_files`
(main.py lines 440-447). -/
structure MediaFileInfo where
  name : String
  size : Nat
  url : String
  type : String
  deriving DecidableEq, Repr

/-- The two response shapes `list_media_files` returns: the listing dict
`{"files": ..., "total": ...}` (main.py line 449) and the created-directory
dict `{"files": [], "message": ...}` (main.py line 432) — the latter has no
`total` field. -/
inductive MediaListResponse where
  | listing (files : List MediaFileInfo) (total : Nat)
  | created (files : List MediaFileInfo) (message : String)
  deriving DecidableEq, Repr

/-- Whether the response dict carries a `total` field. -/
def hasTotalField : MediaListResponse → Bool
  | .listing _ _ => true
  | .created _ _ => false

/-- The per-entry filter of `list_media_files` (main.py lines 437-439):
regular file whose lowercased suffix is a supported extension. -/
def isListedEntry (e : DirEntry) : Bool :=
  e.is_file && SUPPORTED_EXTENSIONS.contains (pyLower (pySuffix e.name))

/-- `list_media_files` (main.py lines 388-449). `quoteFn` is
`urllib.parse.quote`, an external collaborator passed as a parameter. When the
root is missing it is created (`mkdir`) and the no-`total` dict is returned;
otherwise each regular file with a supported extension becomes a
`MediaFileInfo` and the result carries `total = len(files)`. Returns the
response and the filesystem state after the call. -/
def list_media_files (quoteFn : String → String) (fs : MediaFS) :
    MediaListResponse × MediaFS :=
  if fs.rootExists = false then
    (.created [] ("Created directory: " ++ MEDIA_FILES_PATH), ⟨true, []⟩)
  else
    let files := fs.entries.filterMap (fun e =>
      if isListedEntry e then
        some ⟨e.name, e.size, "/media/" ++ quoteFn e.name,
              get_media_type (pyLower (pySuffix e.name))⟩
      else none)
    (.listing files files.length, fs)

/-! ### Helper lemmas -/

theorem find?_replace_eq (store : SessionStore) (k : String) (v : ChatSession)
    (h : store.any (fun p => p.1 = k) = true) :
    (store.map (fun p => if p.1 = k then (k, v) else p)).find?
      (fun p => p.1 = k) = some (k, v) := by
  induction store with
  | nil => simp at h
  | cons a tl ih =>
    by_cases hk : a.1 = k
    · simp [hk]
    · have h2 : tl.any (fun p => p.1 = k) = true := by simpa [List.any_cons, hk] using h
      simp only [List.map_cons, if_neg hk]
      rw [List.find?_cons_of_neg _ (by simpa using hk)]
      exact ih h2

theorem find?_append_new (store : SessionStore) (k : String) (v : ChatSession)
    (h : store.any (fun p => p.1 = k) = false) :
    (store ++ [(k, v)]).find? (fun p => p.1 = k) = some (k, v) := by
  induction store with
  | nil => simp
  | cons a tl ih =>
    have hk : ¬ a.1 = k := by
      intro hh
      simp [List.any_cons, hh] at h
    have h2 : tl.any (fun p => p.1 = k) = false := by
      simpa [List.any_cons, hk] using h
    rw [List.cons_append, List.find?_cons_of_neg _ (by simpa using hk)]
    exact ih h2

theorem get_session_dictInsert (store : SessionStore) (k : String) (v : ChatSession) :
    get_session (dictInsert store k v) k = some v := by
  unfold get_session dictInsert
  by_cases h : store.any (fun p => p.1 = k)
  · rw [if_pos h, find?_replace_eq store k v h]; rfl
  · rw [if_neg h, find?_append_new store k v (Bool.eq_false_iff.mpr h)]; rfl


theorem get_session_update_session (store : SessionStore) (id : String) (t : Nat) :
    get_session (update_session store id t) id =
      (get_session store id).map (fun c => { c with updated_at := t }) := by
  induction store with
  | nil => rfl
  | cons a tl ih =>
    by_cases h : a.1 = id
    · simp only [update_session, get_session, List.map_cons, if_pos h]
      rw [List.find?_cons_of_pos _ (by simpa using h),
        List.find?_cons_of_pos _ (by simpa using h)]
      rfl
    · simp only [update_session, get_session, List.map_cons, if_neg h]
      rw [List.find?_cons_of_neg _ (by simpa using h),
        List.find?_cons_of_neg _ (by simpa using h)]
      exact ih

theorem get_session_append_message (store : SessionStore) (id : String)
    (m : MessageParam) :
    get_session (store.map (fun p =>
        if p.1 = id then (p.1, { p.2 with messages := p.2.messages ++ [m] }) else p))
      id =
      (get_session store id).map (fun c => { c with messages := c.messages ++ [m] }) := by
  induction store with
  | nil => rfl
  | cons a tl ih =>
    by_cases h : a.1 = id
    · simp only [get_session, List.map_cons, if_pos h]
      rw [List.find?_cons_of_pos _ (by simpa using h),
        List.find?_cons_of_pos _ (by simpa using h)]
      rfl
    · simp only [get_session, List.map_cons, if_neg h]
      rw [List.find?_cons_of_neg _ (by simpa using h),
        List.find?_cons_of_neg _ (by simpa using h)]
      exact ih

theorem save_message_found (store : SessionStore) (id role content : String)
    (t : Nat) (s : ChatSession) (h : get_session store id = some s) :
    ∃ store2, save_message store id role content t = .ok store2 ∧
      get_session store2 id = some
        { s with messages := s.messages ++ [make_message role content],
                 updated_at := t } := by
  refine ⟨update_session (store.map (fun p =>
      if p.1 = id then
        (p.1, { p.2 with messages := p.2.messages ++ [make_message role content] })
      else p)) id t, ?_, ?_⟩
  · simp only [save_message, h]
  · rw [get_session_update_session, get_session_append_message, h]
    rfl

/-! ### Claim theorems -/

/-- C1: for every classified upstream failure kind raised during
`stream_generate`, the generator stops consuming upstream output, yields the
fragments received so far followed by that kind's fixed sentinel string as the
final fragment of the visible stream, and — being a total function of the
upstream outcome — terminates normally without propagating any exception. -/
theorem C1_classified_failure_yields_sentinel (chunks : List UpstreamChunk)
    (k : ErrorKind) :
    (stream_generate chunks (some k)).1 = upstreamVisible chunks ++ [errorFragment k] ∧
    (stream_generate chunks (some k)).1.getLast? = some (errorFragment k) := by
  constructor
  · rfl
  · show (upstreamVisible chunks ++ [errorFragment k]).getLast? = some (errorFragment k)
    simp

/-- C2 counterexample: when the very first upstream event is an Authentication
failure, the stream yields exactly the sentinel fragment (which ends in a
newline), but the persisted assistant content is `full_response.strip()`, so
the single append is NOT the concatenation of the yielded fragments. -/
theorem C2_counterexample :
    (generate_stream [] (some .authentication)).2 ≠
      [("assistant", String.join (generate_stream [] (some .authentication)).1)] := by
  decide

/-- C2 (amended): for every send-message stream — normal completion or
classified upstream failure — exactly one assistant-role append occurs after
the fragment stream ends, and its content is the concatenation of all
fragments yielded to the client (sentinel fragment included on error) with
leading and trailing whitespace stripped (`full_response.strip()`). -/
theorem C2_single_append_stripped (chunks : List UpstreamChunk)
    (err : Option ErrorKind) :
    (generate_stream chunks err).2 = [("assistant", pyStrip (String.join
      (upstreamVisible chunks ++ (match err with
        | some k => [errorFragment k]
        | none => []))))] ∧
    (generate_stream chunks err).2.length = 1 := by
  cases err with
  | none => exact ⟨by simp [generate_stream, stream_generate], rfl⟩
  | some k => exact ⟨rfl, rfl⟩

/-- C4 counterexample: appending to an unknown session id does not fail with a
NotFound signal — `save_message` only logs and returns normally (`.ok`). -/
theorem C4_counterexample :
    save_message [] "missing" "user" "hi" 0 ≠ Except.error SessionError.notFound := by
  intro h
  exact Except.noConfusion h

/-- C4 (amended): for every session id not present in the store,
`save_message` returns normally with the store unchanged (the miss is only
logged, no NotFound failure reaches the caller), and `get_session_history`
of the unknown id returns the empty sequence rather than an error. -/
theorem C4_unknown_id_noop (store : SessionStore) (id role content : String)
    (t : Nat) (h : get_session store id = none) :
    save_message store id role content t = .ok store ∧
    get_session_history store id = [] := by
  constructor
  · simp only [save_message, h]
  · simp only [get_session_history, h]

/-- Witness for C4_unknown_id_noop: the empty store with id "missing". -/
theorem C4_witness :
    save_message [] "missing" "user" "hi" 0 = .ok [] ∧
    get_session_history [] "missing" = [] :=
  C4_unknown_id_noop [] "missing" "user" "hi" 0 rfl

/-- C6 counterexample: `create_session` reads the clock twice
(`created_at=datetime.now(), updated_at=datetime.now()`); with clock readings
0 then 1, `get` returns the created session with empty history but its
created_at does not equal its updated_at. -/
theorem C6_counterexample :
    get_session (create_session [] "u" 0 1).2 (create_session [] "u" 0 1).1.session_id
      = some (create_session [] "u" 0 1).1 ∧
    (create_session [] "u" 0 1).1.created_at ≠
      (create_session [] "u" 0 1).1.updated_at := by
  exact ⟨rfl, by decide⟩

/-- C6 (amended): `create()` then `get(id)` returns a session with empty
message history and `created_at ≤ updated_at` (the two separate clock
readings of a monotone clock; equality only when they coincide). -/
theorem C6_create_then_get (store : SessionStore) (uuid : String) (t1 t2 : Nat)
    (h : t1 ≤ t2) :
    get_session (create_session store uuid t1 t2).2
        (create_session store uuid t1 t2).1.session_id
      = some (create_session store uuid t1 t2).1 ∧
    (create_session store uuid t1 t2).1.messages = [] ∧
    (create_session store uuid t1 t2).1.created_at ≤
      (create_session store uuid t1 t2).1.updated_at :=
  ⟨get_session_dictInsert store _ _, rfl, h⟩

/-- Witness for C6_create_then_get: empty store, uuid "w", both readings 0. -/
theorem C6_witness :
    get_session (create_session [] "w" 0 0).2 (create_session [] "w" 0 0).1.session_id
      = some (create_session [] "w" 0 0).1 ∧
    (create_session [] "w" 0 0).1.messages = [] ∧
    (create_session [] "w" 0 0).1.created_at ≤
      (create_session [] "w" 0 0).1.updated_at :=
  C6_create_then_get [] "w" 0 0 (Nat.le_refl 0)

/-- C9: for an existing session and a role outside user/assistant/system,
`save_message` stores a message whose role is "tool", whose content is the
given content unchanged, and whose tool correlation id is "unknown_" followed
by the given role. -/
theorem C9_unknown_role_tool_fallback (store : SessionStore)
    (id role content : String) (t : Nat) (s : ChatSession)
    (h : get_session store id = some s) (hu : role ≠ "user")
    (ha : role ≠ "assistant") (hs : role ≠ "system") :
    ∃ store2, save_message store id role content t = .ok store2 ∧
      get_session_history store2 id =
        s.messages ++ [⟨"tool", content, some ("unknown_" ++ role)⟩] := by
  obtain ⟨store2, h1, h2⟩ := save_message_found store id role content t s h
  refine ⟨store2, h1, ?_⟩
  simp only [get_session_history, h2]
  simp [make_message, hu, ha, hs]

/-- Witness for C9_unknown_role_tool_fallback: one-session store, role
"function". -/
theorem C9_witness :
    ∃ store2, save_message [("chat_x", ⟨"chat_x", 0, 0, []⟩)] "chat_x"
        "function" "out" 5 = .ok store2 ∧
      get_session_history store2 "chat_x" =
        ([] : List MessageParam) ++ [⟨"tool", "out", some ("unknown_" ++ "function")⟩] :=
  C9_unknown_role_tool_fallback [("chat_x", ⟨"chat_x", 0, 0, []⟩)] "chat_x"
    "function" "out" 5 ⟨"chat_x", 0, 0, []⟩ rfl (by decide) (by decide) (by decide)


theorem totalBytes_cons (c : List Nat) (l : List (List Nat)) :
    totalBytes (c :: l) = c.length + totalBytes l := by
  simp [totalBytes]

theorem gfs_total_aux (C : Nat) (hC : 0 < C) :
    ∀ (n : Nat) (content : List Nat), content.length ≤ n →
      totalBytes (generate_file_stream C content) = content.length := by
  intro n
  induction n with
  | zero =>
    intro content h
    have hc : content = [] := List.length_eq_zero.mp (Nat.le_zero.mp h)
    subst hc
    rw [generate_file_stream, dif_pos List.take_nil]
    rfl
  | succ n ih =>
    intro content h
    rw [generate_file_stream]
    by_cases htake : content.take C = []
    · rw [dif_pos htake]
      rcases List.take_eq_nil_iff.mp htake with h0 | h0
      · exact absurd h0 (Nat.pos_iff_ne_zero.mp hC)
      · rw [h0]
        rfl
    · rw [dif_neg htake]
      have hne : content ≠ [] := by
        intro hc
        rw [hc, List.take_nil] at htake
        exact htake rfl
      have h1 : 1 ≤ content.length := List.length_pos.mpr hne
      have hlen : (content.drop C).length ≤ n := by
        rw [List.length_drop]
        omega
      rw [totalBytes_cons, ih (content.drop C) hlen, List.length_take,
        List.length_drop]
      omega

theorem error_stream_loop_aborts (C half : Nat) :
    ∀ (n : Nat) (content : List Nat) (bs : Nat), content.length ≤ n →
      content ≠ [] → 0 < C → half ≤ bs + content.length →
      (error_stream_loop C half content bs).2 = true := by
  intro n
  induction n with
  | zero =>
    intro content bs h hne _ _
    exact absurd (List.length_eq_zero.mp (Nat.le_zero.mp h)) hne
  | succ n ih =>
    intro content bs h hne hC hhalf
    rw [error_stream_loop]
    have htake : content.take C ≠ [] := by
      intro hcc
      rcases List.take_eq_nil_iff.mp hcc with h0 | h0
      · exact Nat.pos_iff_ne_zero.mp hC h0
      · exact hne h0
    rw [dif_neg htake]
    dsimp only
    by_cases habort : half ≤ bs + (content.take C).length
    · rw [if_pos habort]
    · rw [if_neg habort]
      have htlen : (content.take C).length = min C content.length :=
        List.length_take C content
      have hCl : C < content.length := by
        rcases Nat.lt_or_ge C content.length with hh | hh
        · exact hh
        · exact absurd (by omega : half ≤ bs + (content.take C).length) habort
      have hdrop_ne : content.drop C ≠ [] := by
        intro hd
        have hd2 : (content.drop C).length = 0 := by rw [hd]; rfl
        rw [List.length_drop] at hd2
        omega
      have hlen2 : (content.drop C).length ≤ n := by
        rw [List.length_drop]
        omega
      have hhalf2 : half ≤ (bs + (content.take C).length) + (content.drop C).length := by
        rw [List.length_drop]
        omega
      exact ih (content.drop C) (bs + (content.take C).length) hlen2 hdrop_ne hC hhalf2

theorem error_stream_loop_bound (C half : Nat) :
    ∀ (n : Nat) (content : List Nat) (bs : Nat), content.length ≤ n →
      totalBytes (error_stream_loop C half content bs).1 + bs < half ∨
      totalBytes (error_stream_loop C half content bs).1 = 0 := by
  intro n
  induction n with
  | zero =>
    intro content bs h
    have hc : content = [] := List.length_eq_zero.mp (Nat.le_zero.mp h)
    subst hc
    right
    rw [error_stream_loop, dif_pos List.take_nil]
    rfl
  | succ n ih =>
    intro content bs h
    rw [error_stream_loop]
    by_cases htake : content.take C = []
    · rw [dif_pos htake]
      right
      rfl
    · rw [dif_neg htake]
      dsimp only
      by_cases habort : half ≤ bs + (content.take C).length
      · rw [if_pos habort]
        right
        rfl
      · rw [if_neg habort]
        push_neg at habort
        have hCne : C ≠ 0 ∧ content ≠ [] := by
          simpa only [List.take_eq_nil_iff, not_or] using htake
        have h1 : 1 ≤ content.length := List.length_pos.mpr hCne.2
        have h2 : 1 ≤ C := Nat.pos_iff_ne_zero.mpr hCne.1
        have hlen2 : (content.drop C).length ≤ n := by
          rw [List.length_drop]
          omega
        rcases ih (content.drop C) (bs + (content.take C).length) hlen2 with hh | hh
        · left
          rw [totalBytes_cons]
          omega
        · left
          rw [totalBytes_cons]
          omega

/-- C3 counterexample: for an empty file (S = 0), the fault-injecting stream
does not terminate abnormally — the first `read` returns empty, the loop
breaks, and the generator ends normally without raising the transfer-aborted
`ConnectionError`. -/
theorem C3_counterexample : (generate_error_file_stream CHUNK_SIZE []).2 = false := by
  rw [generate_error_file_stream, error_stream_loop, dif_pos List.take_nil]

/-- C3 (amended): for positive chunk size C, the normal-mode stream yields
chunks totalling exactly S bytes; the fault-injecting stream for a file of
size S ≥ 1 always terminates abnormally with the transfer-aborted signal,
with cumulative yielded bytes in [0, ceil(S/2) + C); for S = 0 it terminates
normally after yielding nothing. -/
theorem C3_stream_totals (C : Nat) (content : List Nat) (hC : 0 < C) :
    totalBytes (generate_file_stream C content) = content.length ∧
    (content = [] → generate_error_file_stream C content = ([], false)) ∧
    (content ≠ [] →
      (generate_error_file_stream C content).2 = true ∧
      totalBytes (generate_error_file_stream C content).1 <
        (content.length + 1) / 2 + C) := by
  refine ⟨gfs_total_aux C hC content.length content (Nat.le_refl _), ?_, ?_⟩
  · intro hc
    subst hc
    rw [generate_error_file_stream, error_stream_loop, dif_pos List.take_nil]
  · intro hne
    constructor
    · exact error_stream_loop_aborts C (content.length / 2) content.length content 0
        (Nat.le_refl _) hne hC (by omega)
    · rcases error_stream_loop_bound C (content.length / 2) content.length content 0
        (Nat.le_refl _) with h1 | h1
      · rw [generate_error_file_stream]
        omega
      · rw [generate_error_file_stream]
        omega

/-- Witness for C3_stream_totals: chunk size 2, file bytes [1, 2, 3]. -/
theorem C3_witness :
    totalBytes (generate_file_stream 2 [1, 2, 3]) = 3 ∧
    ((generate_error_file_stream 2 [1, 2, 3]).2 = true ∧
      totalBytes (generate_error_file_stream 2 [1, 2, 3]).1 < (3 + 1) / 2 + 2) :=
  ⟨(C3_stream_totals 2 [1, 2, 3] (by decide)).1,
   (C3_stream_totals 2 [1, 2, 3] (by decide)).2.2 (by decide)⟩

theorem listed_files_names (quoteFn : String → String) (entries : List DirEntry) :
    ((entries.filterMap (fun e =>
      if isListedEntry e then
        some (⟨e.name, e.size, "/media/" ++ quoteFn e.name,
          get_media_type (pyLower (pySuffix e.name))⟩ : MediaFileInfo)
      else none)).map (fun f => (f.name, f.size))) =
      (entries.filter isListedEntry).map (fun e => (e.name, e.size)) := by
  induction entries with
  | nil => rfl
  | cons a tl ih =>
    by_cases h : isListedEntry a
    · simp only [List.filterMap_cons, List.filter_cons, h, if_pos, List.map_cons]
      rw [ih]
    · simp only [List.filterMap_cons, List.filter_cons, h, List.map_cons]
      simpa using ih

/-- C7 counterexample: when the media root directory does not exist, the
response is the created-directory dict `{"files": [], "message": ...}`,
which carries no `total` field — so the listing does not always return an
object containing a `total` field. -/
theorem C7_counterexample :
    hasTotalField (list_media_files (fun s => s) ⟨false, []⟩).1 = false := rfl

/-- C7 (amended): when the root exists, the listing returns
`{files, total}` with `total` equal to the number of listed files, the files
being exactly the regular files directly under the root whose lowercased
extension is in the supported set; when the root does not exist, the
operation creates it and returns the `{"files": [], "message": ...}` dict —
an empty result without a `total` field — instead of failing. -/
theorem C7_media_listing (quoteFn : String → String) (fs : MediaFS) :
    (fs.rootExists = true →
      ∃ files, (list_media_files quoteFn fs).1 = .listing files files.length ∧
        files.map (fun f => (f.name, f.size)) =
          (fs.entries.filter isListedEntry).map (fun e => (e.name, e.size)) ∧
        (list_media_files quoteFn fs).2 = fs) ∧
    (fs.rootExists = false →
      (list_media_files quoteFn fs).1 =
        .created [] ("Created directory: " ++ MEDIA_FILES_PATH) ∧
      (list_media_files quoteFn fs).2 = ⟨true, []⟩) := by
  constructor
  · intro h
    rw [list_media_files, if_neg (by simp [h])]
    exact ⟨_, rfl, listed_files_names quoteFn fs.entries, rfl⟩
  · intro h
    rw [list_media_files, if_pos h]
    exact ⟨rfl, rfl⟩

/-- Witness for C7_media_listing: a root with one supported file (a.mp4) and
one unsupported file (b.txt), and separately a missing root. -/
theorem C7_witness :
    (∃ files, (list_media_files (fun s => s)
        ⟨true, [⟨"a.mp4", true, 5⟩, ⟨"b.txt", true, 1⟩]⟩).1 =
        .listing files files.length ∧
      files.map (fun f => (f.name, f.size)) =
        (([⟨"a.mp4", true, 5⟩, ⟨"b.txt", true, 1⟩] : List DirEntry).filter
          isListedEntry).map (fun e => (e.name, e.size)) ∧
      (list_media_files (fun s => s)
        ⟨true, [⟨"a.mp4", true, 5⟩, ⟨"b.txt", true, 1⟩]⟩).2 =
        ⟨true, [⟨"a.mp4", true, 5⟩, ⟨"b.txt", true, 1⟩]⟩) :=
  (C7_media_listing (fun s => s)
    ⟨true, [⟨"a.mp4", true, 5⟩, ⟨"b.txt", true, 1⟩]⟩).1 rfl

/-- C8: for every positive target rate and chunk boundary, the computed delay
is exactly `max 0 (bytes_sent / R - elapsed)` — zero when the elapsed time
already meets the expected time, the exact shortfall otherwise — so elapsed
time plus delay never falls below `bytes_sent / R`. -/
theorem C8_delay_is_shortfall (limit : ℚ) (bytes_sent : Nat) (elapsed : ℚ)
    (hR : 0 < limit) :
    compute_delay limit bytes_sent elapsed =
      max 0 ((bytes_sent : ℚ) / limit - elapsed) ∧
    (bytes_sent : ℚ) / limit ≤ elapsed + compute_delay limit bytes_sent elapsed := by
  simp only [compute_delay]
  constructor
  · by_cases h : elapsed < (bytes_sent : ℚ) / limit
    · rw [if_pos h, max_eq_right (by linarith)]
    · push_neg at h
      rw [if_neg (by linarith), max_eq_left (by linarith)]
  · by_cases h : elapsed < (bytes_sent : ℚ) / limit
    · rw [if_pos h]
      linarith
    · push_neg at h
      rw [if_neg (by linarith)]
      linarith

/-- Witness for C8_delay_is_shortfall: rate 1 byte/s, 2 bytes sent, 1s
elapsed. -/
theorem C8_witness :
    compute_delay 1 2 1 = max 0 (((2 : ℕ) : ℚ) / 1 - 1) ∧
    ((2 : ℕ) : ℚ) / 1 ≤ 1 + compute_delay 1 2 1 :=
  C8_delay_is_shortfall 1 2 1 (by norm_num)

theorem roundHalfEven_eq_of_near (m : ℤ) (q : ℚ) (h1 : (m : ℚ) - 1 / 2 < q)
    (h2 : q ≤ (m : ℚ)) : roundHalfEven q = m := by
  rcases eq_or_lt_of_le h2 with he | hlt
  · subst he
    simp only [roundHalfEven, Int.floor_intCast]
    rw [if_pos (by norm_num)]
  · have hf : ⌊q⌋ = m - 1 := by
      rw [Int.floor_eq_iff]
      constructor
      · push_cast
        linarith
      · push_cast
        linarith
    simp only [roundHalfEven, hf]
    rw [if_neg (by push_cast; linarith), if_pos (by push_cast; linarith)]
    omega

/-- C5 counterexample: the rate 0.005 MB/s is valid (0 < 0.005 ≤ 100) and
accepted — it stores `int(0.005 * 1048576) = 5242` — but a subsequent get
reports `round(5242 / 1048576, 2) = 0.0`, not 0.005: the store/get
round-trip is not the identity on all valid rates. -/
theorem C5_counterexample :
    set_download_speed (1 / 200) = .ok 5242 ∧
    (get_download_speed 5242).2.1 ≠ 1 / 200 := by
  constructor
  · rw [set_download_speed, if_neg (by norm_num), if_neg (by norm_num), pyInt,
      if_pos (by norm_num)]
    have hf : (⌊(1 : ℚ) / 200 * 1024 * 1024⌋ : ℤ) = 5242 := by norm_num
    rw [hf]
  · have hf : ⌊((5242 : ℤ) : ℚ) / 1024 / 1024 * 100⌋ = (0 : ℤ) := by norm_num
    simp only [get_download_speed, pyRound2, roundHalfEven]
    norm_num

/-- C5 (amended): setting the download speed fails with a 400 error (leaving
the stored limit untouched) exactly when the requested rate is ≤ 0 or
> 100 MB/s; and the store/get round-trip is the identity on every valid
rate expressible with two decimal places (k/100 MB/s, 1 ≤ k ≤ 10000) —
though not on all valid rationals, by C5_counterexample. -/
theorem C5_download_speed_config (s : ℚ) :
    ((∃ e, set_download_speed s = .error e ∧ e.status_code = 400) ↔
      (s ≤ 0 ∨ 100 < s)) ∧
    (∀ k : ℕ, 1 ≤ k → k ≤ 10000 → s = (k : ℚ) / 100 →
      ∃ l, set_download_speed s = .ok l ∧ (get_download_speed l).2.1 = s) := by
  constructor
  · constructor
    · rintro ⟨e, he, -⟩
      by_contra hc
      push_neg at hc
      rw [set_download_speed, if_neg (by linarith [hc.1]), if_neg (by linarith [hc.2])]
        at he
      exact Except.noConfusion he
    · intro hc
      rcases hc with hc | hc
      · exact ⟨⟨400, "Speed must be greater than 0"⟩,
          by rw [set_download_speed, if_pos hc], rfl⟩
      · have hns : ¬ s ≤ 0 := by linarith
        exact ⟨⟨400, "Speed cannot exceed 100 MB/s"⟩,
          by rw [set_download_speed, if_neg hns, if_pos hc], rfl⟩
  · intro k hk1 hk2 hs
    subst hs
    have hk1q : (1 : ℚ) ≤ (k : ℚ) := by exact_mod_cast hk1
    have hk2q : (k : ℚ) ≤ 10000 := by exact_mod_cast hk2
    rw [set_download_speed, if_neg (by linarith), if_neg (by linarith), pyInt,
      if_pos (by positivity)]
    refine ⟨⌊(k : ℚ) / 100 * 1024 * 1024⌋, rfl, ?_⟩
    have hfl : ((⌊(k : ℚ) / 100 * 1024 * 1024⌋ : ℤ) : ℚ) ≤ (k : ℚ) / 100 * 1024 * 1024 :=
      Int.floor_le _
    have hfu : (k : ℚ) / 100 * 1024 * 1024 < (⌊(k : ℚ) / 100 * 1024 * 1024⌋ : ℤ) + 1 :=
      Int.lt_floor_add_one _
    simp only [get_download_speed, pyRound2]
    have hx1 : ((k : ℤ) : ℚ) - 1 / 2 <
        ((⌊(k : ℚ) / 100 * 1024 * 1024⌋ : ℤ) : ℚ) / 1024 / 1024 * 100 := by
      push_cast
      linarith
    have hx2 : ((⌊(k : ℚ) / 100 * 1024 * 1024⌋ : ℤ) : ℚ) / 1024 / 1024 * 100 ≤
        ((k : ℤ) : ℚ) := by
      push_cast
      linarith
    rw [roundHalfEven_eq_of_near (k : ℤ) _ hx1 hx2]
    push_cast
    ring

/-- Witness for C5_download_speed_config: rate 0.50 MB/s (k = 50)
round-trips exactly. -/
theorem C5_witness :
    ∃ l, set_download_speed (((50 : ℕ) : ℚ) / 100) = .ok l ∧
      (get_download_speed l).2.1 = ((50 : ℕ) : ℚ) / 100 :=
  (C5_download_speed_config (((50 : ℕ) : ℚ) / 100)).2 50 (by norm_num) (by norm_num) rfl

/-- C10 counterexample: the rate 1e-7 MB/s is accepted (0 < 1e-7 ≤ 100), but
the stored limit `int(1e-7 * 1048576) = 0` is not strictly positive — the
per-chunk division `bytes_sent / DOWNLOAD_SPEED_LIMIT` in the stream
generators would then divide by zero. -/
theorem C10_counterexample :
    set_download_speed (1 / 10000000) = .ok 0 := by
  rw [set_download_speed, if_neg (by norm_num), if_neg (by norm_num), pyInt,
    if_pos (by norm_num)]
  have hf : (⌊(1 : ℚ) / 10000000 * 1024 * 1024⌋ : ℤ) = 0 := by norm_num
  rw [hf]

/-- C10 (amended): every accepted rate of at least 2^-20 MB/s (one byte per
second) stores a strictly positive byte-rate limit, so the per-chunk
expected-time division cannot divide by zero for those rates; rates below
2^-20 are accepted but store limit 0 (C10_counterexample). -/
theorem C10_positive_limit (s : ℚ) (h1 : 1 / 1048576 ≤ s) (h2 : s ≤ 100) :
    ∃ l, set_download_speed s = .ok l ∧ 0 < l := by
  have hpos : (0 : ℚ) < s := lt_of_lt_of_le (by norm_num) h1
  rw [set_download_speed, if_neg (by linarith), if_neg (by linarith), pyInt,
    if_pos (by positivity)]
  refine ⟨⌊s * 1024 * 1024⌋, rfl, ?_⟩
  have hone : ((1 : ℤ) : ℚ) ≤ s * 1024 * 1024 := by
    push_cast
    linarith
  have := Int.le_floor.mpr hone
  omega

/-- Witness for C10_positive_limit: rate 1 MB/s stores a positive limit. -/
theorem C10_witness :
    ∃ l, set_download_speed 1 = .ok l ∧ 0 < l :=
  C10_positive_limit 1 (by norm_num) (by norm_num)
